import Mathlib

/-!
Verification development for the PainPoint market-research SaaS.

The repository has three source files:
* `services/geminiService.ts` — the three-stage research pipeline
  (`generateResearchPlan`, `executeResearch`, `analyzeSignals`) over the
  Gemini backend, with per-stage try/catch error translation;
* `services/supabase.ts` — the profile store client (`getProfile`,
  `incrementCredits`);
* `App.tsx` — the caller (`startResearch`) holding the run-state machine
  and the free-tier credit gate.

The embedding below is a shallow one: each network call is represented by
an oracle value describing the backend's behaviour on that call (a thrown
error message, or a response whose `text` field may be absent), and the
JavaScript `JSON.parse` builtin is represented by an oracle function
`String → Except String α` (its result on the one text it is applied to).
All control flow, string comparisons and messages are translated directly
from the TypeScript source.
-/

set_option linter.unusedVariables false

namespace PainPoint

/-! ## Data model (types.ts) -/

/-- Entry of `ResearchPlan.subreddits`: a community name plus queries. -/
structure Subreddit where
  name : String
  queries : List String
deriving Repr, DecidableEq

/-- Output of stage 1 (`ResearchPlan` in types.ts): five required fields. -/
structure ResearchPlan where
  subreddits : List Subreddit
  softwareCategories : List String
  competitorApps : List String
  searchStrings : List String
  nicheForums : List String
deriving Repr, DecidableEq

/-- Scores of a problem pattern.  JavaScript numbers carry no arithmetic in
this code, so they are embedded as integers. -/
structure Scores where
  frequency : Int
  desperation : Int
  willingnessToPay : Int
  trend : Int
deriving Repr, DecidableEq

/-- One quote backing a problem pattern. -/
structure Quote where
  text : String
  source : String
  date : String
  url : String
deriving Repr, DecidableEq

/-- One extracted problem pattern of the final report. -/
structure ProblemPattern where
  id : String
  title : String
  description : String
  scores : Scores
  classification : String
  quotes : List Quote
deriving Repr, DecidableEq

/-- Output of stage 3 (`SignalReport` in types.ts). -/
structure SignalReport where
  executiveSummary : String
  patterns : List ProblemPattern
  nextSteps : List String
deriving Repr, DecidableEq

/-- Profile row of the Supabase `profiles` table (`UserProfile`). -/
structure UserProfile where
  id : String
  first_name : Option String
  last_name : Option String
  email : String
  credits_used : Int
  is_pro : Bool
  created_at : String
deriving Repr, DecidableEq

/-- Run-state machine of the caller (`ResearchStage` in types.ts). -/
inductive ResearchStage where
  | IDLE
  | PLANNING
  | RESEARCHING
  | ANALYZING
  | COMPLETED
  | ERROR
deriving Repr, DecidableEq

/-! ## String helpers

JavaScript `String.prototype.includes` is embedded as substring search on
character lists, so that concrete instances reduce in the kernel. -/

/-- `leadsWith p l` holds when the character list `p` is an initial segment
of `l` (helper for substring search). -/
def leadsWith : List Char → List Char → Bool
  | [], _ => true
  | _ :: _, [] => false
  | p :: ps, c :: cs => p = c && leadsWith ps cs

/-- `charsContains needle hay`: does `needle` occur contiguously in `hay`? -/
def charsContains (needle : List Char) : List Char → Bool
  | [] => leadsWith needle []
  | c :: t => leadsWith needle (c :: t) || charsContains needle t

/-- Embedding of JavaScript `s.includes(sub)`. -/
def containsSubstr (s sub : String) : Bool :=
  charsContains sub.data s.data

/-! ## Model Gateway (services/geminiService.ts) -/

/-- Outcome of one `ai.models.generateContent` call: either the await threw
(with an error message), or it resolved to a response whose `text` field
may be absent (`none`) or any string. -/
inductive GenOutcome where
  | thrown (msg : String)
  | response (text : Option String)

/-- JavaScript falsiness of `response.text`: `undefined` or the empty
string (`!response.text`, and the left operand of `||` on line 85). -/
def textFalsy : Option String → Bool
  | none => true
  | some s => s = ""

/-- Condition of geminiService.ts line 12: the key is rejected when it is
falsy (`undefined` or empty) or one of the literal placeholder strings. -/
def apiKeyRejected (apiKey : Option String) : Bool :=
  (match apiKey with | none => true | some s => s = "")
    || apiKey = some "MY_GEMINI_API_KEY"
    || apiKey = some ""
    || apiKey = some "undefined"

/-- Message thrown by `getAI` (geminiService.ts line 20). -/
def geminiAuthErrorMsg : String :=
  "Gemini API Key is missing or empty. Please ensure you have added 'GEMINI_API_KEY' to the Secrets panel and restarted the app."

/-- Embedding of `getAI()`: checks the credential and either throws the
configuration message or returns the client (represented by `Unit`). -/
def getAI (apiKey : Option String) : Except String Unit :=
  if apiKeyRejected apiKey then Except.error geminiAuthErrorMsg else Except.ok ()

/-- Message of geminiService.ts line 51. -/
def invalidApiKeyMsg : String :=
  "Invalid API Key. Please check your GEMINI_API_KEY in the Secrets panel."

/-- Message of geminiService.ts line 54. -/
def rateLimitMsg : String :=
  "Rate limit exceeded. Please wait a moment before trying again."

/-- Message of geminiService.ts line 42 (empty structured response, stage 1). -/
def emptyPlanResponseMsg : String :=
  "The model returned an empty response. This can happen if the prompt was blocked or the model is unavailable."

/-- Message of geminiService.ts line 120 (empty structured response, stage 3). -/
def emptyAnalysisMsg : String :=
  "No analysis received from Gemini."

/-- Sentinel findings text of geminiService.ts line 85. -/
def noResearchDataMsg : String :=
  "No research data found."

/-- Stage-context wrapper of stage 1 (line 57). -/
def planningWrap : String := "Research Planning failed: "

/-- Stage-context wrapper of stage 2 (line 88). -/
def researchWrap : String := "Research Execution failed: "

/-- Stage-context wrapper of stage 3 (line 126). -/
def analysisWrap : String := "Signal Analysis failed: "

/-- Catch-block of `generateResearchPlan` (lines 46-58): re-classify a
401/403 marker as the invalid-credential message, a 429 marker as the
rate-limit message, otherwise wrap with the planning stage context. -/
def classifyPlanningError (msg : String) : String :=
  if containsSubstr msg "403" || containsSubstr msg "401" then invalidApiKeyMsg
  else if containsSubstr msg "429" then rateLimitMsg
  else planningWrap ++ msg

/-- Result of running one stage: the value or the surfaced error message,
plus whether the backend `generateContent` call was reached at all. -/
structure StageRun (α : Type) where
  result : Except String α
  calledBackend : Bool
deriving Repr

/-- Environment of one `generateResearchPlan` invocation: the credential,
the backend's behaviour on the structured call, and the behaviour of
`JSON.parse` on the returned text. -/
structure PlanEnv where
  apiKey : Option String
  call : GenOutcome
  parsePlan : String → Except String ResearchPlan

/-- Try-block of `generateResearchPlan` (lines 26-45): authenticate, call
the backend, reject a falsy `response.text`, parse.  Errors are the raw
thrown messages; the second component records whether the backend call was
reached. -/
def planTryBody (env : PlanEnv) : Except String ResearchPlan × Bool :=
  match getAI env.apiKey with
  | Except.error e => (Except.error e, false)
  | Except.ok _ =>
    match env.call with
    | GenOutcome.thrown e => (Except.error e, true)
    | GenOutcome.response t =>
      if textFalsy t then (Except.error emptyPlanResponseMsg, true)
      else
        match env.parsePlan (t.getD "") with
        | Except.error e => (Except.error e, true)
        | Except.ok plan => (Except.ok plan, true)

/-- Embedding of `generateResearchPlan(market)` (geminiService.ts 25-59).
The market string only shapes the prompt, so it does not influence the
modelled outcome; it is kept as an argument to mirror the signature. -/
def generateResearchPlan (market : String) (env : PlanEnv) : StageRun ResearchPlan :=
  match planTryBody env with
  | (Except.ok plan, b) => ⟨Except.ok plan, b⟩
  | (Except.error e, b) => ⟨Except.error (classifyPlanningError e), b⟩

/-- Environment of one `executeResearch` invocation. -/
structure ResearchEnv where
  apiKey : Option String
  call : GenOutcome

/-- Try-block of `executeResearch` (lines 62-85): authenticate, call the
search-augmented backend, and substitute the sentinel text for a falsy
`response.text` (`response.text || "No research data found."`). -/
def researchTryBody (env : ResearchEnv) : Except String String × Bool :=
  match getAI env.apiKey with
  | Except.error e => (Except.error e, false)
  | Except.ok _ =>
    match env.call with
    | GenOutcome.thrown e => (Except.error e, true)
    | GenOutcome.response t =>
      (Except.ok (if textFalsy t then noResearchDataMsg else t.getD ""), true)

/-- Embedding of `executeResearch(market, plan)` (geminiService.ts 61-90).
The catch-block wraps any thrown message with the stage context, with no
re-classification. -/
def executeResearch (market : String) (plan : ResearchPlan) (env : ResearchEnv) :
    StageRun String :=
  match researchTryBody env with
  | (Except.ok s, b) => ⟨Except.ok s, b⟩
  | (Except.error e, b) => ⟨Except.error (researchWrap ++ e), b⟩

/-- Environment of one `analyzeSignals` invocation. -/
structure AnalyzeEnv where
  apiKey : Option String
  call : GenOutcome
  parseReport : String → Except String SignalReport

/-- Try-block of `analyzeSignals` (lines 93-123). -/
def analyzeTryBody (env : AnalyzeEnv) : Except String SignalReport × Bool :=
  match getAI env.apiKey with
  | Except.error e => (Except.error e, false)
  | Except.ok _ =>
    match env.call with
    | GenOutcome.thrown e => (Except.error e, true)
    | GenOutcome.response t =>
      if textFalsy t then (Except.error emptyAnalysisMsg, true)
      else
        match env.parseReport (t.getD "") with
        | Except.error e => (Except.error e, true)
        | Except.ok r => (Except.ok r, true)

/-- Embedding of `analyzeSignals(market, rawResearch)` (geminiService.ts
92-128).  The catch-block wraps any thrown message with the stage context,
with no re-classification. -/
def analyzeSignals (market : String) (rawResearch : String) (env : AnalyzeEnv) :
    StageRun SignalReport :=
  match analyzeTryBody env with
  | (Except.ok r, b) => ⟨Except.ok r, b⟩
  | (Except.error e, b) => ⟨Except.error (analysisWrap ++ e), b⟩

example :
    (executeResearch "gym owners" ⟨[], [], [], [], []⟩
      ⟨some "k", GenOutcome.response none⟩).result = Except.ok noResearchDataMsg := rfl

example : containsSubstr geminiAuthErrorMsg "401" = false := by decide

example : classifyPlanningError "HTTP 401 Unauthorized" = invalidApiKeyMsg := by decide

/-! ## Profile store (services/supabase.ts) -/

/-- Outcome of the awaited `.single()` query inside `getProfile`: the row
was returned, or the query resolved with an error object carrying a code,
or the await itself threw with a message. -/
inductive QueryOutcome where
  | rows (data : UserProfile)
  | dbError (code : String)
  | thrownErr (msg : String)

/-- Try-block of `getProfile` (supabase.ts lines 26-39): a `PGRST116`
error code (row not found) returns `null`; any other error object is
(re)thrown; a returned row is passed through. -/
def getProfileTry : QueryOutcome → Except String (Option UserProfile)
  | QueryOutcome.rows d => Except.ok (some d)
  | QueryOutcome.dbError code =>
      if code = "PGRST116" then Except.ok none else Except.error code
  | QueryOutcome.thrownErr msg => Except.error msg

/-- Embedding of `getProfile(userId)` (supabase.ts 25-44): the outer catch
turns every thrown error into a `null` return.  The user id only selects
the row, which the query outcome already fixes. -/
def getProfile (userId : String) (q : QueryOutcome) : Option UserProfile :=
  match getProfileTry q with
  | Except.ok v => v
  | Except.error _ => none

/-! ## Caller (App.tsx `startResearch`) -/

/-- Behaviour of the backend and of `JSON.parse` across one full pipeline
run driven by `startResearch`: one oracle per stage call. -/
structure GeminiEnv where
  apiKey : Option String
  planCall : GenOutcome
  parsePlan : String → Except String ResearchPlan
  researchCall : GenOutcome
  analyzeCall : GenOutcome
  parseReport : String → Except String SignalReport

/-- Observable outcome of one `startResearch` invocation: final run state,
the error text shown to the user (`setError`), whether the auth modal was
opened, which stage functions were invoked, and the final report. -/
structure AppOutcome where
  stage : ResearchStage
  errorMsg : Option String
  showedAuthModal : Bool
  planningInvoked : Bool
  researchingInvoked : Bool
  analyzingInvoked : Bool
  finalReport : Option SignalReport
deriving Repr

/-- Error set by the free-tier gate (App.tsx line 135). -/
def creditLimitMsg : String := "Free credit limit reached. Please upgrade to Pro."

/-- Fallback of `setError(err.message || ...)` (App.tsx line 174). -/
def fallbackErrorMsg : String := "An unexpected error occurred during research."

/-- `err.message || fallback` of App.tsx line 174: an empty (falsy)
message is replaced by the generic fallback. -/
def displayError (msg : String) : String :=
  if msg = "" then fallbackErrorMsg else msg

/-- JavaScript falsiness of `market.trim()` (App.tsx line 127): the string
has no non-whitespace character. -/
def marketBlank (market : String) : Bool :=
  market.data.all Char.isWhitespace

/-- Free-tier gate condition of App.tsx line 134:
`profile && !profile.is_pro && profile.credits_used >= 3`. -/
def creditGateBlocks : Option UserProfile → Bool
  | none => false
  | some p => !p.is_pro && decide (3 ≤ p.credits_used)

/-- Stage 3 of the try-block of `startResearch` (App.tsx 155-161):
`analyzeSignals` on the stage-2 findings, then completion. -/
def runStage3 (market rawData : String) (env : GeminiEnv) : AppOutcome :=
  match (analyzeSignals market rawData
      ⟨env.apiKey, env.analyzeCall, env.parseReport⟩).result with
  | Except.error e =>
    ⟨ResearchStage.ERROR, some (displayError e), false, true, true, true, none⟩
  | Except.ok rep =>
    ⟨ResearchStage.COMPLETED, none, false, true, true, true, some rep⟩

/-- Stage 2 of the try-block of `startResearch` (App.tsx 150-153):
`executeResearch` on the stage-1 plan, then stage 3. -/
def runStage2 (market : String) (plan : ResearchPlan) (env : GeminiEnv) : AppOutcome :=
  match (executeResearch market plan ⟨env.apiKey, env.researchCall⟩).result with
  | Except.error e =>
    ⟨ResearchStage.ERROR, some (displayError e), false, true, true, false, none⟩
  | Except.ok rawData => runStage3 market rawData env

/-- Try-block of `startResearch` (App.tsx 145-176): the three stages in
order, transitioning to `ERROR` with the displayed message at the first
failure (the catch-block, `setError` + `setStage(ERROR)`). -/
def runPipeline (market : String) (env : GeminiEnv) : AppOutcome :=
  match (generateResearchPlan market ⟨env.apiKey, env.planCall, env.parsePlan⟩).result with
  | Except.error e =>
    ⟨ResearchStage.ERROR, some (displayError e), false, true, false, false, none⟩
  | Except.ok plan => runStage2 market plan env

/-- Embedding of `startResearch` (App.tsx 125-177): the three guards
(blank market, no session, free-tier gate), then the pipeline.  `stage0`
is the run state when the handler is entered (the guards leave it
unchanged). -/
def startResearch (market : String) (stage0 : ResearchStage)
    (hasSession : Bool) (profile : Option UserProfile) (env : GeminiEnv) : AppOutcome :=
  if marketBlank market then
    ⟨stage0, none, false, false, false, false, none⟩
  else if !hasSession then
    ⟨stage0, none, true, false, false, false, none⟩
  else if creditGateBlocks profile then
    ⟨stage0, some creditLimitMsg, false, false, false, false, none⟩
  else
    runPipeline market env

example :
    (startResearch "gym owners" ResearchStage.IDLE true none
      ⟨some "valid-key", GenOutcome.thrown "HTTP 401 Unauthorized",
        fun _ => Except.error "p", GenOutcome.response (some "x"),
        GenOutcome.response (some "y"), fun _ => Except.error "q"⟩).errorMsg
      = some invalidApiKeyMsg := rfl

example : getProfile "u1" (QueryOutcome.dbError "500") = none := rfl

/-! ## Helper lemmas -/

/-- A rejected credential makes `getAI` throw the configuration message. -/
lemma getAI_rejected {k : Option String} (h : apiKeyRejected k = true) :
    getAI k = Except.error geminiAuthErrorMsg := by
  unfold getAI
  rw [h]
  rfl

/-- An accepted credential makes `getAI` return the client. -/
lemma getAI_accepted {k : Option String} (h : apiKeyRejected k = false) :
    getAI k = Except.ok () := by
  unfold getAI
  rw [h]
  rfl

/-- The configuration message contains none of the HTTP-status markers, so
the stage-1 catch block wraps it with the planning context. -/
lemma classify_authMsg :
    classifyPlanningError geminiAuthErrorMsg = planningWrap ++ geminiAuthErrorMsg := by
  decide

/-- The empty-response message contains none of the HTTP-status markers. -/
lemma classify_emptyMsg :
    classifyPlanningError emptyPlanResponseMsg = planningWrap ++ emptyPlanResponseMsg := by
  decide

/-- Shape of every message produced by the stage-1 catch block. -/
lemma classifyPlanningError_shape (m : String) :
    classifyPlanningError m = invalidApiKeyMsg ∨ classifyPlanningError m = rateLimitMsg ∨
      classifyPlanningError m = planningWrap ++ m := by
  unfold classifyPlanningError
  split
  · exact Or.inl rfl
  · split
    · exact Or.inr (Or.inl rfl)
    · exact Or.inr (Or.inr rfl)

/-- Appending to a non-empty string never yields the empty string. -/
lemma append_ne_empty (pfx u : String) (h : pfx.data ≠ []) : pfx ++ u ≠ "" := by
  intro he
  apply h
  have hd : (pfx ++ u).data = pfx.data ++ u.data := String.data_append pfx u
  rw [he] at hd
  exact (List.append_eq_nil.mp hd.symm).1

/-- `displayError` leaves a stage-wrapped (hence non-empty) message alone. -/
lemma displayError_append (pfx u : String) (h : pfx.data ≠ []) :
    displayError (pfx ++ u) = pfx ++ u := by
  unfold displayError
  rw [if_neg (append_ne_empty pfx u h)]

/-- Every error surfaced by stage 1 is the credential message, the
rate-limit message, or a planning-wrapped message. -/
lemma generateResearchPlan_error_shape (market : String) (env : PlanEnv) (e : String)
    (h : (generateResearchPlan market env).result = Except.error e) :
    e = invalidApiKeyMsg ∨ e = rateLimitMsg ∨ ∃ u, e = planningWrap ++ u := by
  unfold generateResearchPlan at h
  rcases hb : planTryBody env with ⟨r, b⟩
  rw [hb] at h
  cases r with
  | ok plan => simp at h
  | error m =>
    simp at h
    rcases classifyPlanningError_shape m with hc | hc | hc
    · exact Or.inl (h.symm.trans hc)
    · exact Or.inr (Or.inl (h.symm.trans hc))
    · exact Or.inr (Or.inr ⟨m, h.symm.trans hc⟩)

/-- Every error surfaced by stage 2 is research-wrapped. -/
lemma executeResearch_error_shape (market : String) (plan : ResearchPlan)
    (env : ResearchEnv) (e : String)
    (h : (executeResearch market plan env).result = Except.error e) :
    ∃ u, e = researchWrap ++ u := by
  unfold executeResearch at h
  rcases hb : researchTryBody env with ⟨r, b⟩
  rw [hb] at h
  cases r with
  | ok s => simp at h
  | error m =>
    simp at h
    exact ⟨m, h.symm⟩

/-- Every error surfaced by stage 3 is analysis-wrapped. -/
lemma analyzeSignals_error_shape (market raw : String) (env : AnalyzeEnv) (e : String)
    (h : (analyzeSignals market raw env).result = Except.error e) :
    ∃ u, e = analysisWrap ++ u := by
  unfold analyzeSignals at h
  rcases hb : analyzeTryBody env with ⟨r, b⟩
  rw [hb] at h
  cases r with
  | ok r => simp at h
  | error m =>
    simp at h
    exact ⟨m, h.symm⟩

/-- Stage 3 marks stage 1 as invoked in every branch. -/
lemma runStage3_planningInvoked (market rawData : String) (env : GeminiEnv) :
    (runStage3 market rawData env).planningInvoked = true := by
  unfold runStage3
  split <;> rfl

/-- Stage 2 marks stage 1 as invoked in every branch. -/
lemma runStage2_planningInvoked (market : String) (plan : ResearchPlan) (env : GeminiEnv) :
    (runStage2 market plan env).planningInvoked = true := by
  unfold runStage2
  split
  · rfl
  · exact runStage3_planningInvoked market _ env

/-- Entering the pipeline always invokes stage 1. -/
lemma runPipeline_planningInvoked (market : String) (env : GeminiEnv) :
    (runPipeline market env).planningInvoked = true := by
  unfold runPipeline
  split
  · rfl
  · exact runStage2_planningInvoked market _ env

/-- A failing stage-3 run displays an analysis-wrapped message. -/
lemma runStage3_shape (market rawData : String) (env : GeminiEnv)
    (he : (runStage3 market rawData env).stage = ResearchStage.ERROR) :
    ∃ u, (runStage3 market rawData env).errorMsg = some (analysisWrap ++ u) := by
  unfold runStage3 at he ⊢
  rcases h : (analyzeSignals market rawData
      ⟨env.apiKey, env.analyzeCall, env.parseReport⟩).result with e | rep
  · obtain ⟨u, hu⟩ := analyzeSignals_error_shape market rawData _ e h
    subst hu
    exact ⟨u, congrArg some (displayError_append analysisWrap u (by decide))⟩
  · rw [h] at he
    exact ResearchStage.noConfusion he

/-- A run failing at stage 2 or 3 displays a research- or
analysis-wrapped message. -/
lemma runStage2_shape (market : String) (plan : ResearchPlan) (env : GeminiEnv)
    (he : (runStage2 market plan env).stage = ResearchStage.ERROR) :
    ∃ m, (runStage2 market plan env).errorMsg = some m ∧
      ((∃ u, m = researchWrap ++ u) ∨ (∃ u, m = analysisWrap ++ u)) := by
  unfold runStage2 at he ⊢
  rcases h : (executeResearch market plan ⟨env.apiKey, env.researchCall⟩).result
    with e | rawData
  · obtain ⟨u, hu⟩ := executeResearch_error_shape market plan _ e h
    subst hu
    exact ⟨researchWrap ++ u,
      congrArg some (displayError_append researchWrap u (by decide)), Or.inl ⟨u, rfl⟩⟩
  · rw [h] at he
    obtain ⟨u, hu⟩ := runStage3_shape market rawData env he
    exact ⟨analysisWrap ++ u, hu, Or.inr ⟨u, rfl⟩⟩

/-- Every failing pipeline run displays the credential message, the
rate-limit message, or a stage-wrapped message. -/
lemma runPipeline_shape (market : String) (env : GeminiEnv)
    (he : (runPipeline market env).stage = ResearchStage.ERROR) :
    ∃ m, (runPipeline market env).errorMsg = some m ∧
      (m = invalidApiKeyMsg ∨ m = rateLimitMsg ∨
        (∃ u, m = planningWrap ++ u) ∨ (∃ u, m = researchWrap ++ u) ∨
        (∃ u, m = analysisWrap ++ u)) := by
  have hd1 : displayError invalidApiKeyMsg = invalidApiKeyMsg := by decide
  have hd2 : displayError rateLimitMsg = rateLimitMsg := by decide
  unfold runPipeline at he ⊢
  rcases h : (generateResearchPlan market
      ⟨env.apiKey, env.planCall, env.parsePlan⟩).result with e | plan
  · rcases generateResearchPlan_error_shape market _ e h with hs | hs | ⟨u, hs⟩
    · subst hs
      exact ⟨invalidApiKeyMsg, congrArg some hd1, Or.inl rfl⟩
    · subst hs
      exact ⟨rateLimitMsg, congrArg some hd2, Or.inr (Or.inl rfl)⟩
    · subst hs
      exact ⟨planningWrap ++ u,
        congrArg some (displayError_append planningWrap u (by decide)),
        Or.inr (Or.inr (Or.inl ⟨u, rfl⟩))⟩
  · rw [h] at he
    obtain ⟨m, hm, hs⟩ := runStage2_shape market plan env he
    rcases hs with ⟨u, hu⟩ | ⟨u, hu⟩
    · exact ⟨m, hm, Or.inr (Or.inr (Or.inr (Or.inl ⟨u, hu⟩)))⟩
    · exact ⟨m, hm, Or.inr (Or.inr (Or.inr (Or.inr ⟨u, hu⟩)))⟩

/-! ## Claim theorems -/

/-- C1: for every invocation of any of the three stage operations, a
credential that is absent, empty, the placeholder `MY_GEMINI_API_KEY`, or
the literal `"undefined"` makes the stage fail with the configuration
message (`API Key is missing or empty`, wrapped with the stage context)
and the backend call is never attempted. -/
theorem C1_missing_key_blocks_all_stages
    (apiKey : Option String) (h : apiKeyRejected apiKey = true)
    (market raw : String) (plan : ResearchPlan)
    (planCall researchCall analyzeCall : GenOutcome)
    (pp : String → Except String ResearchPlan)
    (pr : String → Except String SignalReport) :
    (generateResearchPlan market ⟨apiKey, planCall, pp⟩).result
        = Except.error (planningWrap ++ geminiAuthErrorMsg) ∧
    (generateResearchPlan market ⟨apiKey, planCall, pp⟩).calledBackend = false ∧
    (executeResearch market plan ⟨apiKey, researchCall⟩).result
        = Except.error (researchWrap ++ geminiAuthErrorMsg) ∧
    (executeResearch market plan ⟨apiKey, researchCall⟩).calledBackend = false ∧
    (analyzeSignals market raw ⟨apiKey, analyzeCall, pr⟩).result
        = Except.error (analysisWrap ++ geminiAuthErrorMsg) ∧
    (analyzeSignals market raw ⟨apiKey, analyzeCall, pr⟩).calledBackend = false := by
  have hAI := getAI_rejected h
  refine ⟨?_, ?_, ?_, ?_, ?_, ?_⟩ <;>
    simp [generateResearchPlan, planTryBody, executeResearch, researchTryBody,
      analyzeSignals, analyzeTryBody, hAI, classify_authMsg]

/-- Witness for C1 at a concrete environment with the literal
`"undefined"` credential. -/
theorem C1_witness :
    (generateResearchPlan "gym owners"
      ⟨some "undefined", GenOutcome.response none, fun _ => Except.error "p"⟩).result
      = Except.error (planningWrap ++ geminiAuthErrorMsg) :=
  (C1_missing_key_blocks_all_stages (some "undefined") (by decide) "gym owners" "raw"
    ⟨[], [], [], [], []⟩ (GenOutcome.response none) (GenOutcome.response none)
    (GenOutcome.response none) (fun _ => Except.error "p")
    (fun _ => Except.error "q")).1

/-- C3: whenever the search-augmented call resolves with an absent or
empty text, `executeResearch` returns the sentinel findings string
`"No research data found."` instead of failing, for every market and
plan. -/
theorem C3_empty_search_text_yields_sentinel
    (k : Option String) (hk : apiKeyRejected k = false)
    (market : String) (plan : ResearchPlan) (t : Option String)
    (ht : textFalsy t = true) :
    (executeResearch market plan ⟨k, GenOutcome.response t⟩).result
      = Except.ok noResearchDataMsg := by
  have hAI := getAI_accepted hk
  simp [executeResearch, researchTryBody, hAI, ht]

/-- Witness for C3 with an absent text field. -/
theorem C3_witness :
    (executeResearch "gym owners" ⟨[], [], [], [], []⟩
      ⟨some "valid-key", GenOutcome.response none⟩).result
      = Except.ok noResearchDataMsg :=
  C3_empty_search_text_yields_sentinel (some "valid-key") (by decide) "gym owners"
    ⟨[], [], [], [], []⟩ none (by decide)

/-- C4: an empty text on a structured call makes stage 1 fail with the
planning-wrapped empty-response message and stage 3 fail with the
analysis-wrapped empty-response message, never returning a value. -/
theorem C4_empty_structured_text_fails
    (k : Option String) (hk : apiKeyRejected k = false)
    (market raw : String) (t : Option String) (ht : textFalsy t = true)
    (pp : String → Except String ResearchPlan)
    (pr : String → Except String SignalReport) :
    (generateResearchPlan market ⟨k, GenOutcome.response t, pp⟩).result
      = Except.error (planningWrap ++ emptyPlanResponseMsg) ∧
    (analyzeSignals market raw ⟨k, GenOutcome.response t, pr⟩).result
      = Except.error (analysisWrap ++ emptyAnalysisMsg) := by
  have hAI := getAI_accepted hk
  constructor <;>
    simp [generateResearchPlan, planTryBody, analyzeSignals, analyzeTryBody,
      hAI, ht, classify_emptyMsg]

/-- Witness for C4 with an empty-string text field. -/
theorem C4_witness :
    (generateResearchPlan "gym owners"
      ⟨some "valid-key", GenOutcome.response (some ""), fun _ => Except.error "p"⟩).result
      = Except.error (planningWrap ++ emptyPlanResponseMsg) :=
  (C4_empty_structured_text_fails (some "valid-key") (by decide) "gym owners" "raw"
    (some "") (by decide) (fun _ => Except.error "p") (fun _ => Except.error "q")).1

/-- C5: whenever `JSON.parse` succeeds on the returned text of the
structured call, stage 1 returns exactly the parsed structure — its five
fields equal the parsed fields (round-trip identity). -/
theorem C5_plan_roundtrip
    (k : Option String) (hk : apiKeyRejected k = false)
    (market t : String) (ht : textFalsy (some t) = false)
    (pp : String → Except String ResearchPlan) (plan : ResearchPlan)
    (hp : pp t = Except.ok plan) :
    (generateResearchPlan market ⟨k, GenOutcome.response (some t), pp⟩).result
      = Except.ok ⟨plan.subreddits, plan.softwareCategories, plan.competitorApps,
          plan.searchStrings, plan.nicheForums⟩ := by
  have hAI := getAI_accepted hk
  simp [generateResearchPlan, planTryBody, hAI, ht, hp]

/-- Witness for C5 at a concrete parse result. -/
theorem C5_witness :
    (generateResearchPlan "gym owners"
      ⟨some "valid-key", GenOutcome.response (some "plan-json"),
        fun _ => Except.ok ⟨[⟨"r/gymowners", ["software frustrations"]⟩], [], [], [], []⟩⟩).result
      = Except.ok ⟨[⟨"r/gymowners", ["software frustrations"]⟩], [], [], [], []⟩ :=
  C5_plan_roundtrip (some "valid-key") (by decide) "gym owners" "plan-json" (by decide)
    (fun _ => Except.ok ⟨[⟨"r/gymowners", ["software frustrations"]⟩], [], [], [], []⟩)
    ⟨[⟨"r/gymowners", ["software frustrations"]⟩], [], [], [], []⟩ rfl

/-- C2 counterexample: an underlying error whose message contains "401"
raised during stage 2 is surfaced as the research-wrapped raw message, not
as the invalid-credential message (only stage 1 re-classifies). -/
theorem C2_counterexample :
    (executeResearch "gym owners" ⟨[], [], [], [], []⟩
      ⟨some "valid-key", GenOutcome.thrown "Request failed with status 401"⟩).result
      = Except.error (researchWrap ++ "Request failed with status 401") ∧
    researchWrap ++ "Request failed with status 401" ≠ invalidApiKeyMsg ∧
    containsSubstr "Request failed with status 401" "401" = true :=
  ⟨rfl, by decide, by decide⟩

/-- C2 amended: only stage 1 re-classifies a message containing "401" or
"403" into the invalid-credential message; stages 2 and 3 surface the
underlying message wrapped verbatim with their own stage context. -/
theorem C2_only_stage1_reports_invalid_credential
    (k : Option String) (hk : apiKeyRejected k = false)
    (market raw : String) (plan : ResearchPlan) (msg : String)
    (h : containsSubstr msg "403" = true ∨ containsSubstr msg "401" = true)
    (pp : String → Except String ResearchPlan)
    (pr : String → Except String SignalReport) :
    (generateResearchPlan market ⟨k, GenOutcome.thrown msg, pp⟩).result
      = Except.error invalidApiKeyMsg ∧
    (executeResearch market plan ⟨k, GenOutcome.thrown msg⟩).result
      = Except.error (researchWrap ++ msg) ∧
    (analyzeSignals market raw ⟨k, GenOutcome.thrown msg, pr⟩).result
      = Except.error (analysisWrap ++ msg) := by
  have hAI := getAI_accepted hk
  have hc : classifyPlanningError msg = invalidApiKeyMsg := by
    unfold classifyPlanningError
    rcases h with h | h <;> simp [h]
  refine ⟨?_, ?_, ?_⟩ <;>
    simp [generateResearchPlan, planTryBody, executeResearch, researchTryBody,
      analyzeSignals, analyzeTryBody, hAI, hc]

/-- Witness for the amended C2 at a concrete 401-marked message. -/
theorem C2_witness :
    (generateResearchPlan "gym owners"
      ⟨some "valid-key", GenOutcome.thrown "Request failed with status 401",
        fun _ => Except.error "p"⟩).result = Except.error invalidApiKeyMsg :=
  (C2_only_stage1_reports_invalid_credential (some "valid-key") (by decide)
    "gym owners" "raw" ⟨[], [], [], [], []⟩ "Request failed with status 401"
    (Or.inr (by decide)) (fun _ => Except.error "p")
    (fun _ => Except.error "q")).1

/-- C8: a signed-in caller whose loaded profile is not pro and has used
three or more credits is rejected: the free-credit-limit error is
reported, no stage is invoked, and the run state stays where it was
(never entering Planning). -/
theorem C8_credit_gate_blocks_run
    (market : String) (hm : marketBlank market = false)
    (stage0 : ResearchStage) (p : UserProfile)
    (hpro : p.is_pro = false) (hc : 3 ≤ p.credits_used) (env : GeminiEnv) :
    startResearch market stage0 true (some p) env
      = ⟨stage0, some creditLimitMsg, false, false, false, false, none⟩ := by
  have hg : creditGateBlocks (some p) = true := by
    simp [creditGateBlocks, hpro, hc]
  unfold startResearch
  rw [hm]
  simp [hg]

/-- Witness for C8: a free profile with exactly three used credits. -/
theorem C8_witness :
    startResearch "gym owners" ResearchStage.IDLE true
      (some ⟨"u1", some "Ada", none, "ada@example.com", 3, false, "2026-01-01"⟩)
      ⟨some "valid-key", GenOutcome.response (some "x"), fun _ => Except.error "p",
        GenOutcome.response (some "y"), GenOutcome.response (some "z"),
        fun _ => Except.error "q"⟩
      = ⟨ResearchStage.IDLE, some creditLimitMsg, false, false, false, false, none⟩ :=
  C8_credit_gate_blocks_run "gym owners" (by decide) ResearchStage.IDLE
    ⟨"u1", some "Ada", none, "ada@example.com", 3, false, "2026-01-01"⟩
    rfl (by decide) _

/-- C9 (implicit): with a valid session but a `null` profile, no credit
gate fires at all — the run enters the pipeline (stage 1 is invoked) for
every environment, and the free-credit-limit error is never reported. -/
theorem C9_null_profile_skips_credit_gate
    (market : String) (hm : marketBlank market = false)
    (stage0 : ResearchStage) (env : GeminiEnv) :
    (startResearch market stage0 true none env).planningInvoked = true := by
  unfold startResearch
  rw [hm]
  simp only [creditGateBlocks, Bool.not_true, Bool.false_eq_true, if_false]
  exact runPipeline_planningInvoked market env

/-- Witness for C9 at a concrete environment. -/
theorem C9_witness :
    (startResearch "gym owners" ResearchStage.IDLE true none
      ⟨some "valid-key", GenOutcome.response (some "x"), fun _ => Except.error "p",
        GenOutcome.response (some "y"), GenOutcome.response (some "z"),
        fun _ => Except.error "q"⟩).planningInvoked = true :=
  C9_null_profile_skips_credit_gate "gym owners" (by decide) ResearchStage.IDLE _

/-- C10 (implicit): `getProfile` never surfaces a storage failure — every
error outcome (any database error code, not only the dedicated `PGRST116`
not-found case, and any thrown exception) yields `none`, so the caller
cannot distinguish a missing row from a storage error. -/
theorem C10_getProfile_null_on_any_failure :
    (∀ userId code, getProfile userId (QueryOutcome.dbError code) = none) ∧
    (∀ userId msg, getProfile userId (QueryOutcome.thrownErr msg) = none) ∧
    (∀ userId code msg,
      getProfile userId (QueryOutcome.dbError code)
        = getProfile userId (QueryOutcome.thrownErr msg)) := by
  have hdb : ∀ userId code, getProfile userId (QueryOutcome.dbError code) = none := by
    intro userId code
    unfold getProfile getProfileTry
    by_cases h : code = "PGRST116" <;> simp [h]
  exact ⟨hdb, fun userId msg => rfl, fun userId code msg => hdb userId code⟩

/-- C6 counterexample: a parse failure whose message happens to contain
"401" (as real `JSON.parse` messages can, e.g. a position number or a
quoted snippet of the bad text) is intercepted by the stage-1 substring
match and surfaced as the invalid-credential message, not as the
planning context plus the underlying parse message. -/
theorem C6_counterexample :
    (generateResearchPlan "gym owners"
      ⟨some "valid-key", GenOutcome.response (some "401 oops"),
        fun _ => Except.error "Unexpected token at position 401"⟩).result
      = Except.error invalidApiKeyMsg ∧
    invalidApiKeyMsg ≠ planningWrap ++ "Unexpected token at position 401" :=
  ⟨rfl, by decide⟩

/-- C6 amended: a parse failure on a structured call is always caught —
both stages return an error, never an unhandled crash.  Stage 3 surfaces
the analysis context plus the underlying message unconditionally; stage 1
surfaces the planning context plus the underlying message only when that
message contains none of "403", "401", "429" (otherwise the credential or
rate-limit message replaces it). -/
theorem C6_parse_failure_always_caught
    (k : Option String) (hk : apiKeyRejected k = false)
    (market raw t : String) (ht : textFalsy (some t) = false)
    (pp : String → Except String ResearchPlan)
    (pr : String → Except String SignalReport) (ep er : String)
    (hpp : pp t = Except.error ep) (hpr : pr t = Except.error er) :
    (generateResearchPlan market ⟨k, GenOutcome.response (some t), pp⟩).result
      = Except.error (classifyPlanningError ep) ∧
    (analyzeSignals market raw ⟨k, GenOutcome.response (some t), pr⟩).result
      = Except.error (analysisWrap ++ er) ∧
    (containsSubstr ep "403" = false → containsSubstr ep "401" = false →
      containsSubstr ep "429" = false →
      classifyPlanningError ep = planningWrap ++ ep) := by
  have hAI := getAI_accepted hk
  refine ⟨?_, ?_, fun h1 h2 h3 => ?_⟩
  · simp [generateResearchPlan, planTryBody, hAI, ht, hpp]
  · simp [analyzeSignals, analyzeTryBody, hAI, ht, hpr]
  · simp [classifyPlanningError, h1, h2, h3]

/-- Witness for the amended C6 at a concrete malformed text. -/
theorem C6_witness :
    (analyzeSignals "gym owners" "raw findings"
      ⟨some "valid-key", GenOutcome.response (some "not json"),
        fun _ => Except.error "Unexpected token n"⟩).result
      = Except.error (analysisWrap ++ "Unexpected token n") :=
  (C6_parse_failure_always_caught (some "valid-key") (by decide) "gym owners"
    "raw findings" "not json" (by decide)
    (fun _ => Except.error "Unexpected token n")
    (fun _ => Except.error "Unexpected token n")
    "Unexpected token n" "Unexpected token n" rfl rfl).2.1

/-- C7 counterexample: a stage-1 failure re-classified as the
invalid-credential message is shown to the user with no indication of the
failing stage — the displayed message names no stage and carries no
stage-context wrapper. -/
theorem C7_counterexample :
    (startResearch "gym owners" ResearchStage.IDLE true none
      ⟨some "valid-key", GenOutcome.thrown "Request failed with status 401",
        fun _ => Except.error "p", GenOutcome.response (some "x"),
        GenOutcome.response (some "y"), fun _ => Except.error "q"⟩).stage
      = ResearchStage.ERROR ∧
    (startResearch "gym owners" ResearchStage.IDLE true none
      ⟨some "valid-key", GenOutcome.thrown "Request failed with status 401",
        fun _ => Except.error "p", GenOutcome.response (some "x"),
        GenOutcome.response (some "y"), fun _ => Except.error "q"⟩).errorMsg
      = some invalidApiKeyMsg ∧
    containsSubstr invalidApiKeyMsg "Planning" = false ∧
    containsSubstr invalidApiKeyMsg "Research" = false ∧
    containsSubstr invalidApiKeyMsg "Analysis" = false ∧
    containsSubstr invalidApiKeyMsg "failed" = false :=
  ⟨rfl, rfl, by decide, by decide, by decide, by decide⟩

/-- C7 amended: every failure surfaced to the user by a pipeline run is
either one of the two stage-1 specific messages (invalid credential or
rate limit, which carry no stage context) or a generic message prefixed
with the failing stage's context. -/
theorem C7_error_message_shape
    (market : String) (stage0 : ResearchStage) (profile : Option UserProfile)
    (env : GeminiEnv)
    (hp : (startResearch market stage0 true profile env).planningInvoked = true)
    (he : (startResearch market stage0 true profile env).stage = ResearchStage.ERROR) :
    ∃ m, (startResearch market stage0 true profile env).errorMsg = some m ∧
      (m = invalidApiKeyMsg ∨ m = rateLimitMsg ∨
        (∃ u, m = planningWrap ++ u) ∨ (∃ u, m = researchWrap ++ u) ∨
        (∃ u, m = analysisWrap ++ u)) := by
  by_cases h1 : marketBlank market = true
  · unfold startResearch at hp
    rw [if_pos h1] at hp
    exact Bool.noConfusion hp
  · by_cases h3 : creditGateBlocks profile = true
    · unfold startResearch at hp
      rw [if_neg h1, if_neg (by decide : ¬((!true) = true)), if_pos h3] at hp
      exact Bool.noConfusion hp
    · unfold startResearch at he ⊢
      rw [if_neg h1, if_neg (by decide : ¬((!true) = true)), if_neg h3] at he ⊢
      exact runPipeline_shape market env he

/-- Witness for the amended C7 at a concrete failing run. -/
theorem C7_witness :
    ∃ m, (startResearch "gym owners" ResearchStage.IDLE true none
      ⟨some "valid-key", GenOutcome.response (some "x"), fun _ => Except.error "bad json",
        GenOutcome.response (some "y"), GenOutcome.response (some "z"),
        fun _ => Except.error "q"⟩).errorMsg = some m ∧
      (m = invalidApiKeyMsg ∨ m = rateLimitMsg ∨
        (∃ u, m = planningWrap ++ u) ∨ (∃ u, m = researchWrap ++ u) ∨
        (∃ u, m = analysisWrap ++ u)) :=
  C7_error_message_shape "gym owners" ResearchStage.IDLE none
    ⟨some "valid-key", GenOutcome.response (some "x"), fun _ => Except.error "bad json",
      GenOutcome.response (some "y"), GenOutcome.response (some "z"),
      fun _ => Except.error "q"⟩ rfl rfl

end PainPoint
